import Mathlib

/-!
Verification of the Nano unscripted-leg swap controller
(`src/coins/nano/client.rs`, `NanoClient`).

The controller's own logic is embedded directly from the source. External
capabilities (the Ed25519-Blake2b crypt engine, the scripted-chain verifier,
and the Nano ledger engine) live outside this repository's sources; they are
modelled from the spec's boundary contracts, each such definition marked
`Modelled from the spec:` in its doc comment.
-/

namespace Nano

/-- Group order of the Ed25519 prime-order subgroup, the scalar modulus of the
`Ed25519Blake2b` engine. -/
def edl : ℕ := 2 ^ 252 + 27742317777372353535851937790883648493

/-- Modelled from the spec: an elliptic-curve scalar of the crypt engine
(`CryptEngine::PrivateKey`); scalar addition is addition mod the group order. -/
abbrev Scalar := ZMod edl

/-- Modelled from the spec: a point of the prime-order subgroup used by the
engine (`CryptEngine::PublicKey`), represented by its discrete logarithm with
respect to the basepoint; point addition is the group operation, so
`to_public_key` is the additive homomorphism the spec requires
(public_point(a) plus public_point(b) = public_point(add_scalars(a, b))). -/
structure Point where
  log : Scalar
deriving DecidableEq

instance : Add Point := ⟨fun a b => ⟨a.log + b.log⟩⟩

theorem Point.add_def (a b : Point) : a + b = ⟨a.log + b.log⟩ := rfl

/-- Modelled from the spec: `Ed25519Blake2b::to_public_key`, deriving the
public point of a scalar. -/
def to_public_key (s : Scalar) : Point := ⟨s⟩

/-- Modelled from the spec: little-endian interpretation of a byte string. -/
def bytesToNatLE : List ℕ → ℕ
  | [] => 0
  | b :: bs => b % 256 + 256 * bytesToNatLE bs

/-- Modelled from the spec: `Ed25519Blake2b::little_endian_bytes_to_private_key`,
the fallible decoding of 32 little-endian bytes into a scalar. -/
def little_endian_bytes_to_private_key (bs : List ℕ) : Except String Scalar :=
  if bs.length = 32 then Except.ok ((bytesToNatLE bs : ℕ) : Scalar)
  else Except.error "invalid scalar encoding"

/-- Modelled from the spec: compressed encoding of a curve point
(`compress().to_bytes()`), an encoding of the point into bytes. -/
def Point.compress_bytes (p : Point) : List ℕ := [p.log.val]

/-- Modelled from the spec: `nanocurrency_types::Account`, a Nano account
identified by 32 public-key bytes. -/
structure Account where
  bytes : List ℕ
deriving DecidableEq

/-- Modelled from the spec: the chain-native string rendering of an account
(`Account::to_string`), a pure function of the account bytes. -/
def Account.to_string (a : Account) : String :=
  "nano_" ++ toString (bytesToNatLE a.bytes)

/-- Block hash of the Nano receivable being spent (`nanocurrency_types::BlockHash`),
modelled as its numeric value. -/
abbrev BlockHash := ℕ

/-- Amount in raw units (`u128` in the source); no arithmetic is performed on
amounts, so the width is immaterial. -/
abbrev Amount := ℕ

/-- The `KeyBundle` structure from `crypt_engines`: DLEQ proof bytes, the two
commitment points, and the scripted-chain destination script. -/
structure KeyBundle where
  dl_eq : List ℕ
  B : Point
  BR : Point
  scripted_destination : List ℕ

/-- Modelled from the spec: `KeyBundle::serialize`, a fixed-order concatenation
of the fields. -/
def KeyBundle.serialize (b : KeyBundle) : List ℕ :=
  b.dl_eq ++ b.B.compress_bytes ++ b.BR.compress_bytes ++ b.scripted_destination

/-- Modelled from the spec: the `ScriptedVerifier` capability as consumed by
`NanoClient` — key-material generation output, the commitment accessors, DLEQ
verification of a remote bundle, and the settlement resolution outcome
(`claim_refund_or_recover_key`: `none` is the cooperative path, `some bytes`
the recovered secret of the adversarial path). -/
structure Verifier where
  gen_dl_eq : List ℕ
  gen_key : Scalar
  B : Point
  BR : Point
  destination_script : List ℕ
  verify_result : List ℕ → Except String Point
  resolve : Except String (Option (List ℕ))

/-- Outcome of a controller operation: `ok` for a normal return, `err` for a
recoverable `anyhow::Result` error (the source's `?`), `fatal` for a
panic-class precondition violation (the source's `expect`), and `pending` when
the modelled poll trace ends while `wait_for_deposit` is still looping. -/
inductive Outcome (α : Type) where
  | ok (a : α)
  | err (e : String)
  | fatal (msg : String)
  | pending
deriving DecidableEq

/-- One response of `NanoEngine::get_confirmed_pending`: either a ledger error
or the list of confirmed pending receivables at the deposit address. -/
abbrev PollResult := Except String (List (BlockHash × Amount))

/-- Record of one spend submitted to the ledger (`NanoEngine::send`): the
reconstructed private scalar used to sign, the input block, the destination
account, and the amount. -/
structure SendCall where
  key : Scalar
  input : BlockHash
  dest : Account
  amount : Amount
deriving DecidableEq

/-- Modelled from the spec: `NanoEngine::send` submits one spend transaction
signed by the address-controlling private key reconstructed from the two
halves with the group's scalar addition (SecretShare combined with the
recovered scalar, the same group combination used for CombinedPublicKey),
spending `amount` from `input` to `dest`. Returns the ledger-mutating calls
issued. -/
def NanoEngine.send (recovered share : Scalar) (input : BlockHash)
    (dest : Account) (amount : Amount) : List SendCall :=
  [⟨recovered + share, input, dest, amount⟩]

/-- The state of `NanoClient` from the source: the parsed refund account and
the four optional session fields, all `None` at construction. -/
structure NanoClient where
  refund : Account
  key_share : Option Scalar
  shared_key : Option Point
  address : Option String
  input : Option (BlockHash × Amount)
deriving DecidableEq

/-- The construction of `NanoClient::new` after the (external) config parse
succeeded: the refund account stored, every session field `None`. -/
def NanoClient.new (refund : Account) : NanoClient :=
  ⟨refund, none, none, none, none⟩

/-- Embeds `NanoClient::generate_keys`: asks the verifier for a fresh DLEQ
proof and key, stores the key as the local share (unconditionally), and
returns the serialized `KeyBundle`. -/
def NanoClient.generate_keys (c : NanoClient) (v : Verifier) :
    List ℕ × NanoClient :=
  (KeyBundle.serialize ⟨v.gen_dl_eq, v.B, v.BR, v.destination_script⟩,
   {c with key_share := some v.gen_key})

/-- Panic message of `verify_keys` when no local share exists. -/
def verifyFatalMsg : String := "Verifying DLEQ proof before generating keys"

/-- Embeds `NanoClient::verify_keys`: verifies the remote bundle first (the
source's `?`), then reads the local share (the source's `expect`), and on
success stores CombinedPublicKey = local public key + host key. -/
def NanoClient.verify_keys (c : NanoClient) (keys : List ℕ) (v : Verifier) :
    NanoClient × Outcome Unit :=
  match v.verify_result keys with
  | Except.error e => (c, Outcome.err e)
  | Except.ok host_key =>
    match c.key_share with
    | none => (c, Outcome.fatal verifyFatalMsg)
    | some ks =>
      ({c with shared_key := some (to_public_key ks + host_key)}, Outcome.ok ())

/-- Panic message of `get_address` when the shared key is unset (the source
writes "addresss" and an apostrophe in "host's"; the apostrophe is elided). -/
def addressFatalMsg : String :=
  "Trying to get the Nano deposit addresss despite not having verified the host DLEQ proof"

/-- Embeds `NanoClient::get_address`: reads the shared key (the source's
`expect`), renders it as a Nano account string, records it as the session
address, and returns it. -/
def NanoClient.get_address (c : NanoClient) : NanoClient × Outcome String :=
  match c.shared_key with
  | none => (c, Outcome.fatal addressFatalMsg)
  | some shared_key =>
    let address := (Account.mk shared_key.compress_bytes).to_string
    ({c with address := some address}, Outcome.ok address)

/-- Panic message of `wait_for_deposit` when no address was recorded. -/
def waitFatalMsg : String := "Waiting for deposit despite not knowing the deposit address"

/-- Embeds the polling loop of `wait_for_deposit`: while no input is recorded,
consume the next adapter response; a ledger error propagates (`?`); otherwise
the response list is truncated to one element and popped, i.e. the first
receivable (if any) becomes the recorded input, and the loop re-checks. The
poll trace stands for the successive return values of
`get_confirmed_pending`; `pending` means the trace ended mid-loop. -/
def waitLoop : NanoClient → List PollResult → NanoClient × Outcome Unit
  | c, [] => if c.input.isSome then (c, Outcome.ok ()) else (c, Outcome.pending)
  | c, p :: rest =>
    if c.input.isSome then (c, Outcome.ok ())
    else
      match p with
      | Except.error e => (c, Outcome.err e)
      | Except.ok inputs => waitLoop {c with input := inputs.head?} rest

/-- Embeds `NanoClient::wait_for_deposit`: reads the recorded address (the
source's `expect`), then runs the polling loop. -/
def NanoClient.wait_for_deposit (c : NanoClient) (polls : List PollResult) :
    NanoClient × Outcome Unit :=
  match c.address with
  | none => (c, Outcome.fatal waitFatalMsg)
  | some _ => waitLoop c polls

/-- Panic message of `refund` when no local share exists. -/
def settleFatalMsg : String := "Finishing before generating keys"

/-- Embeds `NanoClient::refund` (the spec's `settle`; the method consumes the
session). With no recorded input it returns success immediately. Otherwise it
resolves via the verifier; the cooperative outcome (`none`) takes no ledger
action; the adversarial outcome decodes the recovered scalar (`?`), reads the
local share (the source's `expect`) and submits the spend through
`NanoEngine::send`, whose own ledger result `send_result` propagates (`?`).
Returns the ledger-mutating calls issued together with the outcome. -/
def NanoClient.settle (c : NanoClient) (v : Verifier)
    (send_result : Except String Unit) : List SendCall × Outcome Unit :=
  match c.input with
  | none => ([], Outcome.ok ())
  | some (input, amount) =>
    match v.resolve with
    | Except.error e => ([], Outcome.err e)
    | Except.ok none => ([], Outcome.ok ())
    | Except.ok (some recovered_key) =>
      match little_endian_bytes_to_private_key recovered_key with
      | Except.error e => ([], Outcome.err e)
      | Except.ok recovered =>
        match c.key_share with
        | none => ([], Outcome.fatal settleFatalMsg)
        | some share =>
          let calls := NanoEngine.send recovered share input c.refund amount
          match send_result with
          | Except.ok _ => (calls, Outcome.ok ())
          | Except.error e => (calls, Outcome.err e)

/-! Concrete fixtures used to witness the theorems below. -/

/-- A concrete refund account. -/
def acct7 : Account := ⟨List.replicate 32 7⟩

/-- A concrete verifier: key material with share 0, a DLEQ check that rejects
exactly the bundle `[9]` and otherwise accepts (yielding point 0 for the empty
bundle and point 1 otherwise), and an adversarial resolution recovering the
scalar 1. -/
def vTest : Verifier :=
  ⟨[0], 0, ⟨1⟩, ⟨2⟩, [3],
   fun ks =>
     if ks = [9] then Except.error "invalid DLEQ proof"
     else if ks = [] then Except.ok ⟨0⟩ else Except.ok ⟨1⟩,
   Except.ok (some (1 :: List.replicate 31 0))⟩

/-- The same verifier with a cooperative resolution (no recovered scalar). -/
def vCoop : Verifier := {vTest with resolve := Except.ok none}

/-- A client that has generated keys (share 5) but not yet verified. -/
def keyedClient : NanoClient := {NanoClient.new acct7 with key_share := some 5}

/-- A fully funded client: share 5, combined key verified, address recorded,
and a deposit of 100 raw observed in block 3. -/
def fundedClient : NanoClient :=
  { refund := acct7, key_share := some 5, shared_key := some ⟨6⟩,
    address := some ((Account.mk (Point.mk 6).compress_bytes).to_string),
    input := some (3, 100) }

/-! Helper lemmas about the polling loop. -/

/-- When a deposit is already recorded, the polling loop exits at once without
consuming any adapter response. -/
theorem waitLoop_input_some (c : NanoClient) (polls : List PollResult)
    (h : c.input.isSome = true) : waitLoop c polls = (c, Outcome.ok ()) := by
  cases polls with
  | nil => simp [waitLoop, h]
  | cons p rest => simp [waitLoop, h]

/-- The polling loop never changes the stored key share. -/
theorem waitLoop_key_share (c : NanoClient) (polls : List PollResult) :
    (waitLoop c polls).1.key_share = c.key_share := by
  induction polls generalizing c with
  | nil =>
    simp only [waitLoop]
    split <;> rfl
  | cons p rest ih =>
    simp only [waitLoop]
    split
    · rfl
    · cases p with
      | error e => rfl
      | ok inputs => exact ih _

/-- The polling loop never changes the stored shared key. -/
theorem waitLoop_shared_key (c : NanoClient) (polls : List PollResult) :
    (waitLoop c polls).1.shared_key = c.shared_key := by
  induction polls generalizing c with
  | nil =>
    simp only [waitLoop]
    split <;> rfl
  | cons p rest ih =>
    simp only [waitLoop]
    split
    · rfl
    · cases p with
      | error e => rfl
      | ok inputs => exact ih _

/-- Updating `input` to `none` on a client that has no input is the identity. -/
theorem input_none_update (c : NanoClient) (h : c.input = none) :
    {c with input := none} = c := by
  cases c
  simp_all

/-- Polls that report no receivables leave the loop waiting: they are skipped. -/
theorem waitLoop_skip_empty (c : NanoClient) (h : c.input = none)
    (polls₁ polls₂ : List PollResult)
    (hempty : ∀ p ∈ polls₁, p = Except.ok []) :
    waitLoop c (polls₁ ++ polls₂) = waitLoop c polls₂ := by
  induction polls₁ with
  | nil => rfl
  | cons p rest ih =>
    have hp : p = Except.ok [] := hempty p (by simp)
    subst hp
    simp only [List.cons_append, waitLoop, h, Option.isSome_none,
      Bool.false_eq_true, if_false, List.head?]
    rw [input_none_update c h]
    exact ih fun q hq => hempty q (by simp [hq])

/-- A waiting session records the head of the first non-empty response and
stops: later responses and the further receivables of that response are
ignored. -/
theorem waitLoop_first (c : NanoClient) (hin : c.input = none)
    (d : BlockHash × Amount) (ds : List (BlockHash × Amount))
    (polls₁ polls₂ : List PollResult)
    (hempty : ∀ p ∈ polls₁, p = Except.ok []) :
    waitLoop c (polls₁ ++ Except.ok (d :: ds) :: polls₂)
      = ({c with input := some d}, Outcome.ok ()) := by
  rw [waitLoop_skip_empty c hin polls₁ _ hempty, waitLoop]
  simp only [hin, Option.isSome_none, Bool.false_eq_true, if_false, List.head?]
  exact waitLoop_input_some {c with input := some d} polls₂ rfl

/-! Claim theorems. -/

/-- C1: in the Funded state, when settlement resolution recovers a secret
scalar, `settle` submits exactly one spend via the ledger adapter, spending
the full recorded Deposit amount from the recorded input to the
RefundDestination, signed with the private key SecretShare + recovered
scalar — the same group combination (scalar addition, carried by
`to_public_key` to point addition) used to build CombinedPublicKey. -/
theorem settle_adversarial_submits_one_spend
    (c : NanoClient) (v : Verifier) (inp : BlockHash) (amt : Amount)
    (bs : List ℕ) (rk ks : Scalar)
    (hin : c.input = some (inp, amt))
    (hks : c.key_share = some ks)
    (hres : v.resolve = Except.ok (some bs))
    (hdec : little_endian_bytes_to_private_key bs = Except.ok rk) :
    c.settle v (Except.ok ())
      = ([⟨ks + rk, inp, c.refund, amt⟩], Outcome.ok ())
    ∧ to_public_key (ks + rk) = to_public_key ks + to_public_key rk := by
  refine ⟨?_, rfl⟩
  simp [NanoClient.settle, hin, hres, hdec, hks, NanoEngine.send, add_comm]

/-- Witness for C1: the funded fixture settles with one spend of 100 raw from
block 3 to the refund account, signed by 5 + 1. -/
theorem settle_adversarial_submits_one_spend_witness :
    fundedClient.settle vTest (Except.ok ())
      = ([⟨(5 : Scalar) + 1, 3, acct7, 100⟩], Outcome.ok ()) :=
  (settle_adversarial_submits_one_spend fundedClient vTest 3 100
    (1 :: List.replicate 31 0) 1 5 rfl rfl rfl
    (by norm_num [little_endian_bytes_to_private_key, bytesToNatLE,
      List.replicate])).1

/-- C2 counterexample: after one successful `verify_keys` (bundle `[1]`,
CombinedPublicKey = point 6), a second successful call with bundle `[]`
succeeds again and assigns the shared key a second time, changing it —
refuting that it is set at most once under repeated calls. -/
theorem verify_keys_reassigns_shared_key :
    ((keyedClient.verify_keys [1] vTest).1.verify_keys [] vTest).2
      = Outcome.ok ()
    ∧ ((keyedClient.verify_keys [1] vTest).1.verify_keys [] vTest).1.shared_key
      ≠ (keyedClient.verify_keys [1] vTest).1.shared_key := by
  constructor
  · rfl
  · show some (to_public_key 5 + ⟨0⟩) ≠ some (to_public_key 5 + ⟨1⟩)
    decide

/-- C2 amended: CombinedPublicKey is assigned only by `verify_keys` and only
when proof verification succeeds — a failed call leaves the session untouched
and no other operation writes the shared key — but each successful call
(re)assigns it, so at-most-once holds only under the documented single-call
contract. -/
theorem shared_key_set_only_on_successful_verification
    (c₁ c₂ c₃ : NanoClient) (keys₁ keys₂ : List ℕ) (v : Verifier) (e : String)
    (hk : Point) (ks : Scalar) (polls : List PollResult)
    (h₁ : v.verify_result keys₁ = Except.error e)
    (h₂ : v.verify_result keys₂ = Except.ok hk)
    (hks : c₂.key_share = some ks) :
    c₁.verify_keys keys₁ v = (c₁, Outcome.err e)
    ∧ c₂.verify_keys keys₂ v
        = ({c₂ with shared_key := some (to_public_key ks + hk)}, Outcome.ok ())
    ∧ (c₃.generate_keys v).2.shared_key = c₃.shared_key
    ∧ (c₃.get_address).1.shared_key = c₃.shared_key
    ∧ (c₃.wait_for_deposit polls).1.shared_key = c₃.shared_key := by
  refine ⟨?_, ?_, rfl, ?_, ?_⟩
  · simp [NanoClient.verify_keys, h₁]
  · simp [NanoClient.verify_keys, h₂, hks]
  · cases h : c₃.shared_key <;> simp [NanoClient.get_address, h]
  · cases h : c₃.address with
    | none => simp [NanoClient.wait_for_deposit, h]
    | some a => simp [NanoClient.wait_for_deposit, h, waitLoop_shared_key]

/-- Witness for C2 (amended): on the keyed fixture, the rejected bundle `[9]`
leaves the session untouched and the accepted bundle `[1]` stores the combined
key. -/
theorem shared_key_set_only_on_successful_verification_witness :
    keyedClient.verify_keys [9] vTest = (keyedClient, Outcome.err "invalid DLEQ proof")
    ∧ keyedClient.verify_keys [1] vTest
        = ({keyedClient with shared_key := some (to_public_key 5 + ⟨1⟩)},
           Outcome.ok ()) :=
  ⟨(shared_key_set_only_on_successful_verification keyedClient keyedClient
      keyedClient [9] [1] vTest "invalid DLEQ proof" ⟨1⟩ 5 [] rfl rfl rfl).1,
   (shared_key_set_only_on_successful_verification keyedClient keyedClient
      keyedClient [9] [1] vTest "invalid DLEQ proof" ⟨1⟩ 5 [] rfl rfl rfl).2.1⟩

/-- C3 counterexample: on a session whose deposit was never recorded, `settle`
does not fail fast — it returns success (issuing no ledger call), refuting
that settling before `wait_for_deposit` ever completes is a panic-class
precondition violation. -/
theorem settle_before_deposit_is_silent_success :
    ({fundedClient with input := none}.settle vTest (Except.ok ()))
      = ([], Outcome.ok ()) := rfl

/-- C3 amended: `verify_keys` before `generate_keys` fails fast by panic when
the remote proof verifies (an invalid proof is reported as a proof error even
then), and `get_address` before a successful `verify_keys` fails fast by
panic, neither changing state nor computing an address; but `settle` before
`wait_for_deposit` ever completes does not fail fast — it returns success
with zero ledger-mutating calls, so no wrong address is computed and no funds
are sent, yet the ordering violation is a silent no-op rather than a
panic-class failure. -/
theorem lifecycle_order_enforcement
    (c₁ c₂ c₃ : NanoClient) (keys : List ℕ) (v v' : Verifier) (hk : Point)
    (sr : Except String Unit)
    (h₁ : c₁.key_share = none) (hv : v.verify_result keys = Except.ok hk)
    (h₂ : c₂.shared_key = none) (h₃ : c₃.input = none) :
    c₁.verify_keys keys v = (c₁, Outcome.fatal verifyFatalMsg)
    ∧ c₂.get_address = (c₂, Outcome.fatal addressFatalMsg)
    ∧ c₃.settle v' sr = ([], Outcome.ok ()) := by
  refine ⟨?_, ?_, ?_⟩
  · simp [NanoClient.verify_keys, hv, h₁]
  · simp [NanoClient.get_address, h₂]
  · simp [NanoClient.settle, h₃]

/-- Witness for C3 (amended): a fresh client panics on `verify_keys` (with an
accepted bundle) and on `get_address`, and the undeposited fixture settles as
a silent no-op. -/
theorem lifecycle_order_enforcement_witness :
    (NanoClient.new acct7).verify_keys [1] vTest
      = (NanoClient.new acct7, Outcome.fatal verifyFatalMsg)
    ∧ (NanoClient.new acct7).get_address
      = (NanoClient.new acct7, Outcome.fatal addressFatalMsg)
    ∧ {fundedClient with input := none}.settle vCoop (Except.ok ())
      = ([], Outcome.ok ()) :=
  lifecycle_order_enforcement (NanoClient.new acct7) (NanoClient.new acct7)
    {fundedClient with input := none} [1] vTest vCoop ⟨1⟩ (Except.ok ())
    rfl rfl rfl rfl

/-- C4: in the KeysGenerated state, an invalid remote proof makes
`verify_keys` return the verifier's error, leaves the whole session unchanged
(in particular CombinedPublicKey unset), and the resulting session still
cannot derive an address. -/
theorem verify_keys_rejects_invalid_proof
    (c : NanoClient) (keys : List ℕ) (v : Verifier) (e : String)
    (hks : c.key_share.isSome = true) (hsk : c.shared_key = none)
    (he : v.verify_result keys = Except.error e) :
    c.verify_keys keys v = (c, Outcome.err e)
    ∧ (c.verify_keys keys v).1.shared_key = none
    ∧ ((c.verify_keys keys v).1).get_address = (c, Outcome.fatal addressFatalMsg) := by
  have h : c.verify_keys keys v = (c, Outcome.err e) := by
    simp [NanoClient.verify_keys, he]
  refine ⟨h, ?_, ?_⟩
  · rw [h]; exact hsk
  · rw [h]; simp [NanoClient.get_address, hsk]

/-- Witness for C4: the keyed fixture rejects the tampered bundle `[9]`,
keeps its shared key unset, and still panics on `get_address`. -/
theorem verify_keys_rejects_invalid_proof_witness :
    keyedClient.verify_keys [9] vTest = (keyedClient, Outcome.err "invalid DLEQ proof")
    ∧ (keyedClient.verify_keys [9] vTest).1.shared_key = none
    ∧ ((keyedClient.verify_keys [9] vTest).1).get_address
      = (keyedClient, Outcome.fatal addressFatalMsg) :=
  verify_keys_rejects_invalid_proof keyedClient [9] vTest "invalid DLEQ proof"
    rfl rfl rfl

/-- C5: once CombinedPublicKey is set, `get_address` returns the pure
chain-native rendering of that key, any two sessions holding the same key get
the identical string, and a repeated call on the resulting session returns the
same address and state. -/
theorem get_address_deterministic
    (c₁ c₂ : NanoClient) (sk : Point)
    (h₁ : c₁.shared_key = some sk) (h₂ : c₂.shared_key = some sk) :
    (c₁.get_address).2 = Outcome.ok ((Account.mk sk.compress_bytes).to_string)
    ∧ (c₁.get_address).2 = (c₂.get_address).2
    ∧ ((c₁.get_address).1).get_address = ((c₁.get_address).1, (c₁.get_address).2) := by
  refine ⟨?_, ?_, ?_⟩ <;> simp [NanoClient.get_address, h₁, h₂]

/-- Witness for C5: two sessions sharing combined key 6 (the funded fixture
and a fresh session given the same key) derive the identical address, and the
call is idempotent. -/
theorem get_address_deterministic_witness :
    (fundedClient.get_address).2
      = Outcome.ok ((Account.mk (Point.mk 6).compress_bytes).to_string)
    ∧ (fundedClient.get_address).2
      = (({NanoClient.new acct7 with shared_key := some ⟨6⟩}).get_address).2
    ∧ ((fundedClient.get_address).1).get_address
      = ((fundedClient.get_address).1, (fundedClient.get_address).2) :=
  get_address_deterministic fundedClient
    {NanoClient.new acct7 with shared_key := some ⟨6⟩} ⟨6⟩ rfl rfl

/-- C6: when settlement resolution reports the cooperative outcome (no
recovered scalar), `settle` issues zero ledger-mutating calls and returns
success, whatever the ledger submission oracle would have answered. -/
theorem settle_cooperative_no_ledger_calls
    (c : NanoClient) (v : Verifier) (inp : BlockHash) (amt : Amount)
    (sr : Except String Unit)
    (hin : c.input = some (inp, amt)) (hres : v.resolve = Except.ok none) :
    c.settle v sr = ([], Outcome.ok ()) := by
  simp [NanoClient.settle, hin, hres]

/-- Witness for C6: the funded fixture under the cooperative verifier settles
with no spend. -/
theorem settle_cooperative_no_ledger_calls_witness :
    fundedClient.settle vCoop (Except.ok ()) = ([], Outcome.ok ()) :=
  settle_cooperative_no_ledger_calls fundedClient vCoop 3 100 (Except.ok ())
    rfl rfl

/-- C7: when no Deposit was ever recorded, `settle` is a no-op returning
success: the result does not depend on the verifier or the ledger oracle
(neither is consulted) and no spend is issued; the session is consumed
without further change. -/
theorem settle_without_deposit_noop
    (c : NanoClient) (v : Verifier) (sr : Except String Unit)
    (hin : c.input = none) :
    c.settle v sr = ([], Outcome.ok ()) := by
  simp [NanoClient.settle, hin]

/-- Witness for C7: the keyed fixture (no deposit recorded) settles as a
no-op even with an adversarial verifier and a failing ledger oracle. -/
theorem settle_without_deposit_noop_witness :
    keyedClient.settle vTest (Except.error "ledger down") = ([], Outcome.ok ()) :=
  settle_without_deposit_noop keyedClient vTest (Except.error "ledger down") rfl

/-- C8: `wait_for_deposit` records exactly the head of the first non-empty
confirmed-pending response as the session's Deposit — the remaining
simultaneous receivables `ds` and later responses are ignored — and a session
that already tracks a deposit exits immediately without consuming responses,
so at most one Deposit is ever tracked. -/
theorem wait_records_first_receivable
    (c c' : NanoClient) (a a' : String) (d d₀ : BlockHash × Amount)
    (ds : List (BlockHash × Amount)) (polls₁ polls₂ polls' : List PollResult)
    (ha : c.address = some a) (hin : c.input = none)
    (hempty : ∀ p ∈ polls₁, p = Except.ok [])
    (ha' : c'.address = some a') (hin' : c'.input = some d₀) :
    c.wait_for_deposit (polls₁ ++ Except.ok (d :: ds) :: polls₂)
      = ({c with input := some d}, Outcome.ok ())
    ∧ c'.wait_for_deposit polls' = (c', Outcome.ok ()) := by
  constructor
  · rw [NanoClient.wait_for_deposit]
    split
    · simp_all
    · exact waitLoop_first c hin d ds polls₁ polls₂ hempty
  · rw [NanoClient.wait_for_deposit]
    split
    · simp_all
    · exact waitLoop_input_some c' polls' (by simp [hin'])

/-- Witness for C8: with an error-free trace (an empty poll, then a poll
reporting two receivables), the keyed-and-addressed fixture records only the
first receivable; the funded fixture, already tracking block 3, is unchanged. -/
theorem wait_records_first_receivable_witness :
    ({fundedClient with input := none}).wait_for_deposit
        ([Except.ok []] ++ Except.ok [(3, 100), (4, 50)] :: [])
      = (fundedClient, Outcome.ok ())
    ∧ fundedClient.wait_for_deposit [Except.ok [(9, 9)]]
      = (fundedClient, Outcome.ok ()) :=
  wait_records_first_receivable {fundedClient with input := none} fundedClient
    ((Account.mk (Point.mk 6).compress_bytes).to_string)
    ((Account.mk (Point.mk 6).compress_bytes).to_string)
    (3, 100) (3, 100) [(4, 50)] [Except.ok []] [] [Except.ok [(9, 9)]]
    rfl rfl (by simp) rfl rfl

/-- C9 counterexample: a second call to `generate_keys` (here with a verifier
yielding share 2 after a first call stored share 1) silently replaces the
already-stored SecretShare, refuting that no second call ever replaces it. -/
theorem generate_keys_overwrites_share :
    ((((NanoClient.new acct7).generate_keys {vTest with gen_key := 1}).2.generate_keys
        {vTest with gen_key := 2}).2).key_share
      ≠ (((NanoClient.new acct7).generate_keys {vTest with gen_key := 1}).2).key_share := by
  show some (2 : Scalar) ≠ some 1
  decide

/-- C9 amended: `generate_keys` unconditionally stores the verifier-supplied
share, so a second call replaces an already-stored share (the exactly-once
contract rests on the caller); under that contract SecretShare is set at most
once — it is unset at construction and no other lifecycle operation writes
it — hence before CombinedPublicKey, DepositAddress or Deposit exist. -/
theorem key_share_written_only_by_generate_keys
    (c : NanoClient) (v : Verifier) (keys : List ℕ) (polls : List PollResult)
    (r : Account) :
    (NanoClient.new r).key_share = none
    ∧ (c.generate_keys v).2.key_share = some v.gen_key
    ∧ (c.verify_keys keys v).1.key_share = c.key_share
    ∧ (c.get_address).1.key_share = c.key_share
    ∧ (c.wait_for_deposit polls).1.key_share = c.key_share := by
  refine ⟨rfl, rfl, ?_, ?_, ?_⟩
  · rw [NanoClient.verify_keys]
    cases v.verify_result keys with
    | error e => rfl
    | ok hk => cases h : c.key_share <;> simp [h]
  · cases h : c.shared_key <;> simp [NanoClient.get_address, h]
  · cases h : c.address with
    | none => simp [NanoClient.wait_for_deposit, h]
    | some a => simp [NanoClient.wait_for_deposit, h, waitLoop_key_share]

/-- C10: a session that never called `get_address` has no recorded address,
so `wait_for_deposit` fails fast by panic even though both key generation and
verification completed successfully. -/
theorem wait_requires_recorded_address
    (c : NanoClient) (polls : List PollResult) (ks : Scalar) (sk : Point)
    (hk : c.key_share = some ks) (hs : c.shared_key = some sk)
    (ha : c.address = none) :
    c.wait_for_deposit polls = (c, Outcome.fatal waitFatalMsg) := by
  simp [NanoClient.wait_for_deposit, ha]

/-- Witness for C10: a session with share 5 and combined key 6 but no
recorded address panics in `wait_for_deposit`. -/
theorem wait_requires_recorded_address_witness :
    ({keyedClient with shared_key := some ⟨6⟩}).wait_for_deposit [Except.ok [(1, 1)]]
      = ({keyedClient with shared_key := some ⟨6⟩}, Outcome.fatal waitFatalMsg) :=
  wait_requires_recorded_address {keyedClient with shared_key := some ⟨6⟩}
    [Except.ok [(1, 1)]] 5 ⟨6⟩ rfl rfl rfl

end Nano
